import Mathlib

/-!
# Scope display and SDRplay settings of sdrangel

A shallow embedding of `sdrbase/gui/glscope.cpp`: the trace hand-off
(`GLScope::newTrace`), the configuration setters, the display transform
(`GLScope::handleMode`) and the line-strip part of the render pass
(`GLScope::paintGL`); and of `plugins/samplesource/sdrplay/sdrplaysettings.cpp`:
`SDRPlaySettings::serialize` and `SDRPlaySettings::deserialize`.  The
properties established about them follow the definitions.

Modelling conventions.

* `Real` (a C `float`) is an arbitrary linearly ordered field `R`; the
  theorems that speak of modulus, argument and logarithm instantiate it with
  the real numbers.  Rounding, infinities and NaN are outside the model.
* `std::vector<Complex>` is a `List (Cplx R)`.
* The pointer `m_displayTrace` only ever holds `&m_rawTrace` or
  `&m_mathTrace`; it is a two-valued selector.
* `QMutex::tryLock(2)` is a Boolean input of the operation: `true` when the
  lock was obtained within the wait, `false` otherwise.
* C integer arithmetic is over unbounded integers with truncating division;
  wrap-around of `int`/`size_t` and the unsigned promotion of negative
  operands are outside the model.
* OpenGL calls other than the vertices of the two line strips, Qt signals and
  the widget geometry computed by `applyConfig` are not modelled.
* `SimpleSerializer` and `SimpleDeserializer` (`util/simpleserializer.h`) are
  not among the sources; a serialized blob is a version tag with a map from
  field id to value.
-/

set_option autoImplicit false

namespace SDRangel

/-- Complex sample, `std::complex<Real>` (the source's `Complex`). -/
structure Cplx (R : Type) where
  re : R
  im : R
deriving DecidableEq, Repr

namespace Cplx

variable {R : Type}

/-- Difference of two samples, `operator-` of `std::complex`. -/
def sub [Sub R] (a b : Cplx R) : Cplx R := ⟨a.re - b.re, a.im - b.im⟩

/-- Complex conjugate, `std::conj`. -/
def conj [Neg R] (a : Cplx R) : Cplx R := ⟨a.re, -a.im⟩

/-- Value-initialised sample `Complex()`, used by `std::vector::resize` for new slots. -/
def zero [Zero R] : Cplx R := ⟨0, 0⟩

end Cplx

/-- The functions of `<cmath>` and `<complex>` that `handleMode` calls; they are
library code, taken as parameters of the embedding. -/
structure MathLib (R : Type) where
  /-- Modulus `abs(z)`. -/
  abs : Cplx R → R
  /-- Argument `arg(z)`. -/
  arg : Cplx R → R
  /-- Base-2 logarithm `log2f(x)`. -/
  log2f : R → R
  /-- The constant `M_PI`. -/
  M_PI : R

/-- Display modes, `GLScope::Mode`. -/
inductive Mode where
  | ModeIQ
  | ModeMagLinPha
  | ModeMagdBPha
  | ModeDerived12
  | ModeCyclostationary
deriving DecidableEq, Repr

/-- Layout of the two channels, `Qt::Orientation`. -/
inductive Orientation where
  | Horizontal
  | Vertical
deriving DecidableEq, Repr

/-- Target of the pointer `m_displayTrace`. -/
inductive TraceSel where
  | raw
  | math
deriving DecidableEq, Repr

/-- The members of `GLScope` that the trace, transform and render code reads or writes. -/
structure GLScope (R : Type) where
  m_dataChanged : Bool
  m_configChanged : Bool
  m_mode : Mode
  m_orientation : Orientation
  m_rawTrace : List (Cplx R)
  m_mathTrace : List (Cplx R)
  m_displayTrace : TraceSel
  m_oldTraceSize : Int
  m_sampleRate : Int
  m_amp : R
  m_ofs : R
  m_amp1 : R
  m_amp2 : R
  m_ofs1 : R
  m_ofs2 : R
  m_timeBase : Int
  m_timeOfsProMill : Int
  m_displayGridIntensity : Int

namespace GLScope

variable {R : Type}

/-- The trace `*m_displayTrace`. -/
def displayTrace (s : GLScope R) : List (Cplx R) :=
  match s.m_displayTrace with
  | .raw => s.m_rawTrace
  | .math => s.m_mathTrace

/-- Effect of `std::vector::resize(n)`: keep the first `n` elements, pad with `Complex()`. -/
def resize [Zero R] (v : List (Cplx R)) (n : Nat) : List (Cplx R) :=
  v.take n ++ List.replicate (n - v.length) Cplx.zero

/-- Loop `for (x in items) *dst++ = f(x)`, where `dst` starts at position `k` of `out`. -/
def fill {α : Type} (f : α → Cplx R) : List α → Nat → List (Cplx R) → List (Cplx R)
  | [], _, out => out
  | x :: items, k, out => fill f items (k + 1) (out.set k (f x))

/-- Element `m_rawTrace[i]` inside the transform loops (their indices are in range). -/
def rawAt [Zero R] (raw : List (Cplx R)) (i : Nat) : Cplx R := raw.getD i Cplx.zero

/-- Body of the `ModeMagLinPha` loop. -/
def magLinPha [Div R] (lib : MathLib R) (z : Cplx R) : Cplx R :=
  ⟨lib.abs z, lib.arg z / lib.M_PI⟩

/-- Body of the `ModeMagdBPha` loop, with `mult = 10 / log2f(10)`. -/
def magdBPha [Field R] (lib : MathLib R) (ofs : R) (z : Cplx R) : Cplx R :=
  let mult : R := 10 / lib.log2f 10
  let v : R := z.re * z.re + z.im * z.im
  ⟨(100 - ofs * 100 + mult * lib.log2f v) / 100, lib.arg z / lib.M_PI⟩

/-- Body of the `ModeDerived12` loop at index `i`. -/
def derived12 [Field R] (lib : MathLib R) (raw : List (Cplx R)) (i : Nat) : Cplx R :=
  ⟨lib.abs ((rawAt raw i).sub (rawAt raw (i - 1))),
   lib.abs ((rawAt raw i).sub (rawAt raw (i - 1)))
     - lib.abs ((rawAt raw (i - 2)).sub (rawAt raw (i - 3)))⟩

/-- Body of the `ModeCyclostationary` loop at index `i`. -/
def cyclostationary [Field R] (lib : MathLib R) (raw : List (Cplx R)) (i : Nat) : Cplx R :=
  ⟨lib.abs ((rawAt raw i).sub (rawAt raw (i - 1)).conj), 0⟩

/-- Display transform `GLScope::handleMode`. -/
def handleMode [Field R] (lib : MathLib R) (s : GLScope R) : GLScope R :=
  match s.m_mode with
  | .ModeIQ =>
      { s with m_displayTrace := .raw, m_amp1 := s.m_amp, m_amp2 := s.m_amp,
               m_ofs1 := 0, m_ofs2 := 0 }
  | .ModeMagLinPha =>
      { s with m_mathTrace :=
                 fill (magLinPha lib) s.m_rawTrace 0 (resize s.m_mathTrace s.m_rawTrace.length),
               m_displayTrace := .math, m_amp1 := s.m_amp, m_amp2 := 1,
               m_ofs1 := -1 / s.m_amp, m_ofs2 := 0 }
  | .ModeMagdBPha =>
      { s with m_mathTrace :=
                 fill (magdBPha lib s.m_ofs) s.m_rawTrace 0
                   (resize s.m_mathTrace s.m_rawTrace.length),
               m_displayTrace := .math, m_amp1 := 2 * s.m_amp, m_amp2 := 1,
               m_ofs1 := -1 / (2 * s.m_amp), m_ofs2 := 0 }
  | .ModeDerived12 =>
      if s.m_rawTrace.length > 3 then
        { s with m_mathTrace :=
                   fill (derived12 lib s.m_rawTrace) (List.range' 3 (s.m_rawTrace.length - 3)) 0
                     (resize s.m_mathTrace (s.m_rawTrace.length - 3)),
                 m_displayTrace := .math, m_amp1 := s.m_amp, m_amp2 := s.m_amp,
                 m_ofs1 := -1 / s.m_amp, m_ofs2 := 0 }
      else s
  | .ModeCyclostationary =>
      if s.m_rawTrace.length > 2 then
        { s with m_mathTrace :=
                   fill (cyclostationary lib s.m_rawTrace)
                     (List.range' 2 (s.m_rawTrace.length - 2)) 0
                     (resize s.m_mathTrace (s.m_rawTrace.length - 2)),
                 m_displayTrace := .math, m_amp1 := s.m_amp, m_amp2 := s.m_amp,
                 m_ofs1 := -1 / s.m_amp, m_ofs2 := 0 }
      else s

/-- Trace hand-off `GLScope::newTrace`; `locked` is the result of `m_mutex.tryLock(2)`. -/
def newTrace (locked : Bool) (trace : List (Cplx R)) (sampleRate : Int) (s : GLScope R) :
    GLScope R :=
  if !locked then s
  else if s.m_dataChanged then s
  else { s with m_rawTrace := trace, m_sampleRate := sampleRate, m_dataChanged := true }

/-- Window start `m_timeOfsProMill * (size - size / m_timeBase) / 1000`, before the guard. -/
def windowStart (timeOfsProMill timeBase : Int) (size : Nat) : Int :=
  Int.tdiv (timeOfsProMill * ((size : Int) - Int.tdiv (size : Int) timeBase)) 1000

/-- Window end `start + size / m_timeBase`. -/
def windowEnd (timeOfsProMill timeBase : Int) (size : Nat) : Int :=
  windowStart timeOfsProMill timeBase size + Int.tdiv (size : Int) timeBase

/-- Value of `start` after the guard `if (end - start < 2) start--`. -/
def loopStart (timeOfsProMill timeBase : Int) (size : Nat) : Int :=
  if windowEnd timeOfsProMill timeBase size - windowStart timeOfsProMill timeBase size < 2 then
    windowStart timeOfsProMill timeBase size - 1
  else windowStart timeOfsProMill timeBase size

/-- Values taken by `i` in `for (int i = start; i < end; i++)`, in order. -/
def loopIndices (start stop : Int) : List Int :=
  (List.range (stop - start).toNat).map (fun (j : Nat) => start + (j : Int))

/-- Indices visited by the line-strip loops of a render pass over a trace of `size` samples. -/
def drawnIndices (timeOfsProMill timeBase : Int) (size : Nat) : List Int :=
  loopIndices (loopStart timeOfsProMill timeBase size) (windowEnd timeOfsProMill timeBase size)

/-- Lookup `(*m_displayTrace)[i]` with an `int` index; outside the vector the source has no
defined value, which is `none` here. -/
def traceAt (t : List (Cplx R)) (i : Int) : Option (Cplx R) :=
  if 0 ≤ i then t.get? i.toNat else none

/-- Limiting of a plotted value:
`if (v > posLimit) v = posLimit; else if (v < negLimit) v = negLimit;`. -/
def limit [LinearOrder R] (v posLimit negLimit : R) : R :=
  if v > posLimit then posLimit else if v < negLimit then negLimit else v

/-- The value clamp of the specification, `clamp(v, lo, hi)`. -/
def clamp [LinearOrder R] (v lo hi : R) : R := max lo (min v hi)

/-- Vertices `glVertex2f(i - start, v)` of the channel 1 line strip; an entry is `none` when
the loop reads outside the displayed trace. -/
def lineStrip1 [LinearOrderedField R] (s : GLScope R) : List (Option (Int × R)) :=
  if s.displayTrace.length > 0 then
    (drawnIndices s.m_timeOfsProMill s.m_timeBase s.displayTrace.length).map fun i =>
      (traceAt s.displayTrace i).map fun z =>
        (i - loopStart s.m_timeOfsProMill s.m_timeBase s.displayTrace.length,
         limit (z.re + s.m_ofs1) (1 / s.m_amp1) (-1 / s.m_amp1))
  else []

/-- Vertices `glVertex2f(i - start, v)` of the channel 2 line strip. -/
def lineStrip2 [LinearOrderedField R] (s : GLScope R) : List (Option (Int × R)) :=
  if s.displayTrace.length > 0 then
    (drawnIndices s.m_timeOfsProMill s.m_timeBase s.displayTrace.length).map fun i =>
      (traceAt s.displayTrace i).map fun z =>
        (i - loopStart s.m_timeOfsProMill s.m_timeBase s.displayTrace.length,
         limit z.im (1 / s.m_amp2) (-1 / s.m_amp2))
  else []

/-- What one render pass hands to OpenGL: the two line strips. -/
structure Frame (R : Type) where
  strip1 : List (Option (Int × R))
  strip2 : List (Option (Int × R))

/-- The part of `GLScope::applyConfig` that touches the modelled members. -/
def applyConfig (s : GLScope R) : GLScope R := { s with m_configChanged := false }

/-- Size bookkeeping of `paintGL`: `if (size - m_oldTraceSize != 0) m_oldTraceSize = size`. -/
def noteTraceSize (s : GLScope R) : GLScope R :=
  if (s.displayTrace.length : Int) - s.m_oldTraceSize ≠ 0 then
    { s with m_oldTraceSize := (s.displayTrace.length : Int) }
  else s

/-- Render pass `GLScope::paintGL`; `locked` is the result of `m_mutex.tryLock(2)`.  Returns
the state afterwards and the frame drawn, if any. -/
def paintGL [LinearOrderedField R] (lib : MathLib R) (locked : Bool) (s : GLScope R) :
    GLScope R × Option (Frame R) :=
  if !locked then (s, none)
  else
    let s1 := if s.m_configChanged then applyConfig s else s
    let s2 := noteTraceSize (handleMode lib s1)
    ({ s2 with m_dataChanged := false }, some ⟨lineStrip1 s2, lineStrip2 s2⟩)

/-- Setter `GLScope::setAmp`. -/
def setAmp (amp : R) (s : GLScope R) : GLScope R :=
  { s with m_amp := amp, m_configChanged := true }

/-- Setter `GLScope::setAmpOfs`. -/
def setAmpOfs (ampOfs : R) (s : GLScope R) : GLScope R :=
  { s with m_ofs := ampOfs, m_configChanged := true }

/-- Setter `GLScope::setTimeBase`. -/
def setTimeBase (timeBase : Int) (s : GLScope R) : GLScope R :=
  { s with m_timeBase := timeBase }

/-- Setter `GLScope::setTimeOfsProMill`. -/
def setTimeOfsProMill (timeOfsProMill : Int) (s : GLScope R) : GLScope R :=
  { s with m_timeOfsProMill := timeOfsProMill }

/-- Setter `GLScope::setMode`; it also raises `m_dataChanged`. -/
def setMode (mode : Mode) (s : GLScope R) : GLScope R :=
  { s with m_mode := mode, m_dataChanged := true }

/-- Setter `GLScope::setOrientation`. -/
def setOrientation (orientation : Orientation) (s : GLScope R) : GLScope R :=
  { s with m_orientation := orientation, m_configChanged := true }

/-- Setter `GLScope::setDisplayGridIntensity`:
`m_displayGridIntensity = intensity; if (m_displayGridIntensity > 100) m_displayGridIntensity = 100;`. -/
def setDisplayGridIntensity (intensity : Int) (s : GLScope R) : GLScope R :=
  if intensity > 100 then { s with m_displayGridIntensity := 100 }
  else { s with m_displayGridIntensity := intensity }

end GLScope

/-! ## Settings of the SDRplay source: `plugins/samplesource/sdrplay/sdrplaysettings.cpp` -/

/-- A value stored under one field id of a serialized settings blob. -/
inductive SerialValue where
  | s32 (v : Int)
  | u32 (v : Nat)
  | bool (v : Bool)
deriving DecidableEq, Repr

/-- Modelled from the spec: `SimpleSerializer` of `util/simpleserializer.h`, which is not
among the sources, as a version tag with a map from field id to value. -/
structure SimpleSerializer where
  version : Nat
  fields : Nat → Option SerialValue

/-- Modelled from the spec: a `QByteArray` handed to `deserialize`, which either is the
output of a `SimpleSerializer` (`some`) or does not parse as one (`none`). -/
abbrev QByteArray := Option SimpleSerializer

namespace SimpleSerializer

/-- Modelled from the spec: constructor `SimpleSerializer(version)`, an empty map. -/
def new (version : Nat) : SimpleSerializer := ⟨version, fun _ => none⟩

/-- Modelled from the spec: `writeS32(id, value)` binds `id` to a signed value. -/
def writeS32 (id : Nat) (value : Int) (s : SimpleSerializer) : SimpleSerializer :=
  { s with fields := Function.update s.fields id (some (.s32 value)) }

/-- Modelled from the spec: `writeU32(id, value)` binds `id` to an unsigned value. -/
def writeU32 (id : Nat) (value : Nat) (s : SimpleSerializer) : SimpleSerializer :=
  { s with fields := Function.update s.fields id (some (.u32 value)) }

/-- Modelled from the spec: `writeBool(id, value)` binds `id` to a Boolean. -/
def writeBool (id : Nat) (value : Bool) (s : SimpleSerializer) : SimpleSerializer :=
  { s with fields := Function.update s.fields id (some (.bool value)) }

/-- Modelled from the spec: `final()`, the serialized blob. -/
def final (s : SimpleSerializer) : QByteArray := some s

end SimpleSerializer

/-- Modelled from the spec: `SimpleDeserializer` of `util/simpleserializer.h`, which is not
among the sources: a reader of the version tag and of the field map of a blob. -/
structure SimpleDeserializer where
  data : QByteArray

namespace SimpleDeserializer

/-- Modelled from the spec: `isValid()`, whether the blob parsed. -/
def isValid (d : SimpleDeserializer) : Bool := d.data.isSome

/-- Modelled from the spec: `getVersion()`, the version tag of the blob. -/
def getVersion (d : SimpleDeserializer) : Nat :=
  match d.data with
  | some b => b.version
  | none => 0

/-- Modelled from the spec: `readS32(id, &result, def)`; the value left in `result` is the
signed value bound to `id`, or `def` when there is none. -/
def readS32 (id : Nat) (dflt : Int) (d : SimpleDeserializer) : Int :=
  match d.data.bind (fun b => b.fields id) with
  | some (.s32 v) => v
  | _ => dflt

/-- Modelled from the spec: `readU32(id, &result, def)`. -/
def readU32 (id : Nat) (dflt : Nat) (d : SimpleDeserializer) : Nat :=
  match d.data.bind (fun b => b.fields id) with
  | some (.u32 v) => v
  | _ => dflt

/-- Modelled from the spec: `readBool(id, &result, def)`. -/
def readBool (id : Nat) (dflt : Bool) (d : SimpleDeserializer) : Bool :=
  match d.data.bind (fun b => b.fields id) with
  | some (.bool v) => v
  | _ => dflt

end SimpleDeserializer

/-- The members of `SDRPlaySettings`.  The enumeration `fcPos_t` of `m_fcPos` is declared in
`sdrplaysettings.h`, which is not among the sources; the member holds its integer value, so
the casts `(int) m_fcPos` and `(fcPos_t) intval` are the identity. -/
structure SDRPlaySettings where
  m_centerFrequency : Nat
  m_LOppmTenths : Int
  m_frequencyBandIndex : Nat
  m_ifFrequencyIndex : Nat
  m_mirDcCorrIndex : Nat
  m_mirDcCorrTrackTimeIndex : Nat
  m_bandwidthIndex : Nat
  m_devSampleRateIndex : Nat
  m_gainRedctionIndex : Nat
  m_log2Decim : Nat
  m_fcPos : Int
  m_dcBlock : Bool
  m_iqCorrection : Bool
deriving DecidableEq, Repr

namespace SDRPlaySettings

/-- The defaults of `SDRPlaySettings::resetToDefaults`; `FC_POS_CENTER` is the value of that
enumerator, declared in the absent header. -/
def resetToDefaults (FC_POS_CENTER : Int) : SDRPlaySettings where
  m_centerFrequency := 7040 * 1000
  m_LOppmTenths := 0
  m_frequencyBandIndex := 0
  m_ifFrequencyIndex := 0
  m_mirDcCorrIndex := 0
  m_mirDcCorrTrackTimeIndex := 1
  m_bandwidthIndex := 0
  m_devSampleRateIndex := 0
  m_gainRedctionIndex := 35
  m_log2Decim := 0
  m_fcPos := FC_POS_CENTER
  m_dcBlock := false
  m_iqCorrection := false

/-- Serialization `SDRPlaySettings::serialize`. -/
def serialize (s : SDRPlaySettings) : QByteArray :=
  (SimpleSerializer.new 1)
    |>.writeS32 1 s.m_LOppmTenths
    |>.writeU32 2 s.m_frequencyBandIndex
    |>.writeU32 3 s.m_ifFrequencyIndex
    |>.writeU32 4 s.m_mirDcCorrIndex
    |>.writeU32 5 s.m_mirDcCorrTrackTimeIndex
    |>.writeU32 6 s.m_bandwidthIndex
    |>.writeU32 7 s.m_devSampleRateIndex
    |>.writeU32 8 s.m_gainRedctionIndex
    |>.writeU32 9 s.m_log2Decim
    |>.writeS32 10 s.m_fcPos
    |>.writeBool 11 s.m_dcBlock
    |>.writeBool 12 s.m_iqCorrection
    |>.final

/-- Deserialization `SDRPlaySettings::deserialize` into the settings object `t`: the object
afterwards and the value returned. -/
def deserialize (FC_POS_CENTER : Int) (data : QByteArray) (t : SDRPlaySettings) :
    SDRPlaySettings × Bool :=
  let d : SimpleDeserializer := ⟨data⟩
  if !d.isValid then (resetToDefaults FC_POS_CENTER, false)
  else if d.getVersion = 1 then
    ({ t with
        m_LOppmTenths := d.readS32 1 0,
        m_frequencyBandIndex := d.readU32 2 0,
        m_ifFrequencyIndex := d.readU32 3 0,
        m_mirDcCorrIndex := d.readU32 4 0,
        m_mirDcCorrTrackTimeIndex := d.readU32 5 1,
        m_bandwidthIndex := d.readU32 6 0,
        m_devSampleRateIndex := d.readU32 7 0,
        m_gainRedctionIndex := d.readU32 8 35,
        m_log2Decim := d.readU32 9 0,
        m_fcPos := d.readS32 10 0,
        m_dcBlock := d.readBool 11 false,
        m_iqCorrection := d.readBool 12 false }, true)
  else (resetToDefaults FC_POS_CENTER, false)

/-- Settings with every persisted member away from its default. -/
def sampleSettings : SDRPlaySettings where
  m_centerFrequency := 14070000
  m_LOppmTenths := -25
  m_frequencyBandIndex := 3
  m_ifFrequencyIndex := 2
  m_mirDcCorrIndex := 4
  m_mirDcCorrTrackTimeIndex := 7
  m_bandwidthIndex := 5
  m_devSampleRateIndex := 6
  m_gainRedctionIndex := 40
  m_log2Decim := 3
  m_fcPos := 1
  m_dcBlock := true
  m_iqCorrection := true

end SDRPlaySettings

namespace GLScope

variable {R : Type}

/-- The library functions over the real numbers: modulus, argument, base-2 logarithm, `π`. -/
noncomputable def realLib : MathLib ℝ where
  abs z := Complex.abs ⟨z.re, z.im⟩
  arg z := Complex.arg ⟨z.re, z.im⟩
  log2f x := Real.logb 2 x
  M_PI := Real.pi

/-- A scope showing a derived trace of one sample, switched to `ModeDerived12` while the raw
trace holds only two samples. -/
def staleScope : GLScope ℝ where
  m_dataChanged := true
  m_configChanged := false
  m_mode := .ModeDerived12
  m_orientation := .Horizontal
  m_rawTrace := [⟨1, 0⟩, ⟨0, 1⟩]
  m_mathTrace := [⟨7, 7⟩]
  m_displayTrace := .math
  m_oldTraceSize := 1
  m_sampleRate := 48000
  m_amp := 1
  m_ofs := 0
  m_amp1 := 1
  m_amp2 := 1
  m_ofs1 := -1
  m_ofs2 := 0
  m_timeBase := 1
  m_timeOfsProMill := 0
  m_displayGridIntensity := 5

/-- A scope as constructed (`m_dataChanged` clear, empty traces), over the rationals. -/
def freshScope : GLScope ℚ where
  m_dataChanged := false
  m_configChanged := true
  m_mode := .ModeIQ
  m_orientation := .Horizontal
  m_rawTrace := []
  m_mathTrace := []
  m_displayTrace := .raw
  m_oldTraceSize := -1
  m_sampleRate := 0
  m_amp := 1
  m_ofs := 0
  m_amp1 := 1
  m_amp2 := 1
  m_ofs1 := 0
  m_ofs2 := 0
  m_timeBase := 1
  m_timeOfsProMill := 0
  m_displayGridIntensity := 5

/-- A scope in `ModeIQ` holding a raw trace of two samples while a derived trace of another
length is still in the math buffer. -/
def iqScope : GLScope ℝ :=
  { staleScope with m_mode := .ModeIQ }

/-- A scope in `ModeMagLinPha` whose raw trace runs once round the unit circle. -/
def circleScope : GLScope ℝ :=
  { staleScope with m_mode := .ModeMagLinPha,
                    m_rawTrace := [⟨1, 0⟩, ⟨0, 1⟩, ⟨-1, 0⟩, ⟨0, -1⟩] }

/-- A scope in `ModeMagdBPha` with amplitude offset `2` and raw trace `[1, i]`. -/
def dBScope : GLScope ℝ :=
  { staleScope with m_mode := .ModeMagdBPha, m_ofs := 2 }

/-- A scope in `ModeDerived12` with a raw trace of five samples. -/
def derivedScope : GLScope ℝ :=
  { staleScope with m_rawTrace := [⟨1, 0⟩, ⟨0, 1⟩, ⟨-1, 0⟩, ⟨0, -1⟩, ⟨1, 0⟩] }

/-- A scope in `ModeCyclostationary` with a raw trace of three samples. -/
def cycloScope : GLScope ℝ :=
  { staleScope with m_mode := .ModeCyclostationary,
                    m_rawTrace := [⟨1, 0⟩, ⟨0, 1⟩, ⟨-1, 0⟩] }

/-- A scope in `ModeMagLinPha` with `amp = 1`, time base 1 and the raw trace `[1, i]`. -/
def linScope : GLScope ℝ :=
  { staleScope with m_mode := .ModeMagLinPha }

/-- A scope in `ModeIQ` with two raw samples and time base 2, window at the left end. -/
def zoomScope : GLScope ℝ :=
  { staleScope with m_mode := .ModeIQ, m_timeBase := 2 }

/-- A scope in `ModeIQ` with two raw samples, time base 3 and the window at the right end. -/
def onePointScope : GLScope ℝ :=
  { staleScope with m_mode := .ModeIQ, m_timeBase := 3, m_timeOfsProMill := 1000 }

/-! ## Auxiliary facts about the transform loops -/

theorem length_resize [Zero R] (v : List (Cplx R)) (n : Nat) : (resize v n).length = n := by
  simp only [resize, List.length_append, List.length_take, List.length_replicate]
  omega

theorem length_fill {α : Type} (f : α → Cplx R) (items : List α) (k : Nat)
    (out : List (Cplx R)) : (fill f items k out).length = out.length := by
  induction items generalizing k out with
  | nil => rfl
  | cons x xs ih => simp [fill, ih]

theorem fill_eq {α : Type} (f : α → Cplx R) (items : List α) (k : Nat) (out : List (Cplx R))
    (h : k + items.length ≤ out.length) :
    fill f items k out = out.take k ++ items.map f ++ out.drop (k + items.length) := by
  induction items generalizing k out with
  | nil => simp [fill]
  | cons x xs ih =>
    have hk : k < out.length := by simp at h; omega
    rw [fill, ih (k + 1) (out.set k (f x)) (by simp at h ⊢; omega)]
    have hlen : (List.take k out).length = k := by simp; omega
    have h1 : List.take (k + 1) (out.set k (f x)) = List.take k out ++ [f x] := by
      rw [List.set_eq_take_append_cons_drop, if_pos hk, List.take_append_eq_append_take, hlen]
      simp
    have h2 : List.drop (k + 1 + xs.length) (out.set k (f x))
        = List.drop (k + (x :: xs).length) out := by
      rw [List.drop_set, if_pos (by omega)]
      congr 1
      simp
      omega
    rw [h1, h2]
    simp

/-- A loop that writes one value per slot of the resized buffer overwrites all of it. -/
theorem fill_resize [Zero R] {α : Type} (f : α → Cplx R) (items : List α)
    (v : List (Cplx R)) : fill f items 0 (resize v items.length) = items.map f := by
  rw [fill_eq f items 0 _ (by rw [length_resize]; omega)]
  have h : List.drop (0 + items.length) (resize v items.length) = [] := by
    apply List.drop_eq_nil_of_le
    rw [length_resize]
    omega
  rw [h]
  simp

theorem handleMode_IQ [Field R] (lib : MathLib R) (s : GLScope R) (h : s.m_mode = .ModeIQ) :
    handleMode lib s =
      { s with m_displayTrace := .raw, m_amp1 := s.m_amp, m_amp2 := s.m_amp,
               m_ofs1 := 0, m_ofs2 := 0 } := by
  simp [handleMode, h]

theorem handleMode_MagLinPha [Field R] (lib : MathLib R) (s : GLScope R)
    (h : s.m_mode = .ModeMagLinPha) :
    handleMode lib s =
      { s with m_mathTrace := s.m_rawTrace.map (magLinPha lib),
               m_displayTrace := .math, m_amp1 := s.m_amp, m_amp2 := 1,
               m_ofs1 := -1 / s.m_amp, m_ofs2 := 0 } := by
  simp [handleMode, h, fill_resize]

theorem handleMode_MagdBPha [Field R] (lib : MathLib R) (s : GLScope R)
    (h : s.m_mode = .ModeMagdBPha) :
    handleMode lib s =
      { s with m_mathTrace := s.m_rawTrace.map (magdBPha lib s.m_ofs),
               m_displayTrace := .math, m_amp1 := 2 * s.m_amp, m_amp2 := 1,
               m_ofs1 := -1 / (2 * s.m_amp), m_ofs2 := 0 } := by
  simp [handleMode, h, fill_resize]

theorem handleMode_Derived12 [Field R] (lib : MathLib R) (s : GLScope R)
    (h : s.m_mode = .ModeDerived12) (hn : 3 < s.m_rawTrace.length) :
    handleMode lib s =
      { s with m_mathTrace :=
                 (List.range' 3 (s.m_rawTrace.length - 3)).map (derived12 lib s.m_rawTrace),
               m_displayTrace := .math, m_amp1 := s.m_amp, m_amp2 := s.m_amp,
               m_ofs1 := -1 / s.m_amp, m_ofs2 := 0 } := by
  have hf := fill_resize (derived12 lib s.m_rawTrace) (List.range' 3 (s.m_rawTrace.length - 3))
    s.m_mathTrace
  rw [List.length_range'] at hf
  simp [handleMode, h, hn, hf]

theorem handleMode_Cyclostationary [Field R] (lib : MathLib R) (s : GLScope R)
    (h : s.m_mode = .ModeCyclostationary) (hn : 2 < s.m_rawTrace.length) :
    handleMode lib s =
      { s with m_mathTrace :=
                 (List.range' 2 (s.m_rawTrace.length - 2)).map (cyclostationary lib s.m_rawTrace),
               m_displayTrace := .math, m_amp1 := s.m_amp, m_amp2 := s.m_amp,
               m_ofs1 := -1 / s.m_amp, m_ofs2 := 0 } := by
  have hf := fill_resize (cyclostationary lib s.m_rawTrace)
    (List.range' 2 (s.m_rawTrace.length - 2)) s.m_mathTrace
  rw [List.length_range'] at hf
  simp [handleMode, h, hn, hf]

theorem handleMode_Derived12_short [Field R] (lib : MathLib R) (s : GLScope R)
    (h : s.m_mode = .ModeDerived12) (hn : s.m_rawTrace.length ≤ 3) : handleMode lib s = s := by
  have : ¬ 3 < s.m_rawTrace.length := by omega
  simp [handleMode, h, this]

theorem handleMode_Cyclostationary_short [Field R] (lib : MathLib R) (s : GLScope R)
    (h : s.m_mode = .ModeCyclostationary) (hn : s.m_rawTrace.length ≤ 2) :
    handleMode lib s = s := by
  have : ¬ 2 < s.m_rawTrace.length := by omega
  simp [handleMode, h, this]

/-! ## Length of the displayed trace -/

/-- C1, as stated, fails: in `ModeDerived12` with a raw trace of two samples (fewer than the
four the mode needs) `handleMode` leaves the scope untouched, so the derived trace of the
previous pass, of one sample, is still the displayed trace; the claim wants it empty. -/
theorem handleMode_short_raw_shows_previous :
    staleScope.m_mode = Mode.ModeDerived12 ∧
    staleScope.m_rawTrace.length = 2 ∧
    max (0 : Int) ((staleScope.m_rawTrace.length : Int) - 3) = 0 ∧
    (handleMode realLib staleScope).displayTrace = staleScope.m_mathTrace ∧
    (handleMode realLib staleScope).displayTrace.length = 1 := by
  refine ⟨rfl, rfl, by decide, ?_, ?_⟩ <;>
    simp [handleMode, staleScope, displayTrace]

/-- C1, amended: after `handleMode` the displayed trace has the length of the raw trace in
`ModeIQ`, `ModeMagLinPha` and `ModeMagdBPha`; the raw length less 3 in `ModeDerived12` when
the raw trace has more than 3 samples and less 2 in `ModeCyclostationary` when it has more
than 2; on a shorter raw trace in these two modes `handleMode` changes nothing, so what was
displayed before stays displayed. -/
theorem handleMode_displayTrace_length [Field R] (lib : MathLib R) (s : GLScope R) :
    (s.m_mode = Mode.ModeIQ ∨ s.m_mode = Mode.ModeMagLinPha ∨ s.m_mode = Mode.ModeMagdBPha →
      (handleMode lib s).displayTrace.length = s.m_rawTrace.length) ∧
    (s.m_mode = Mode.ModeDerived12 → 3 < s.m_rawTrace.length →
      (handleMode lib s).displayTrace.length = s.m_rawTrace.length - 3) ∧
    (s.m_mode = Mode.ModeCyclostationary → 2 < s.m_rawTrace.length →
      (handleMode lib s).displayTrace.length = s.m_rawTrace.length - 2) ∧
    (s.m_mode = Mode.ModeDerived12 → s.m_rawTrace.length ≤ 3 → handleMode lib s = s) ∧
    (s.m_mode = Mode.ModeCyclostationary → s.m_rawTrace.length ≤ 2 → handleMode lib s = s) := by
  refine ⟨?_, ?_, ?_, handleMode_Derived12_short lib s, handleMode_Cyclostationary_short lib s⟩
  · rintro (h | h | h)
    · rw [handleMode_IQ lib s h]; rfl
    · rw [handleMode_MagLinPha lib s h]; simp [displayTrace]
    · rw [handleMode_MagdBPha lib s h]; simp [displayTrace]
  · intro h hn
    rw [handleMode_Derived12 lib s h hn]; simp [displayTrace]
  · intro h hn
    rw [handleMode_Cyclostationary lib s h hn]; simp [displayTrace]

/-- C1, amended, at concrete scopes: two raw samples in `ModeIQ` give two displayed samples,
five raw samples in `ModeDerived12` give two, three in `ModeCyclostationary` give one, and two
raw samples in `ModeDerived12` leave the scope as it was. -/
theorem handleMode_displayTrace_length_witness :
    (handleMode realLib iqScope).displayTrace.length = 2 ∧
    (handleMode realLib derivedScope).displayTrace.length = 5 - 3 ∧
    (handleMode realLib cycloScope).displayTrace.length = 3 - 2 ∧
    handleMode realLib staleScope = staleScope :=
  ⟨(handleMode_displayTrace_length realLib iqScope).1 (Or.inl rfl),
   (handleMode_displayTrace_length realLib derivedScope).2.1 rfl (by decide),
   (handleMode_displayTrace_length realLib cycloScope).2.2.1 rfl (by decide),
   (handleMode_displayTrace_length realLib staleScope).2.2.2.1 rfl (by decide)⟩

/-! ## The IQ mode -/

/-- C2: in `ModeIQ` the displayed trace after `handleMode` has the length of the raw trace
and its element `i` is `(raw[i].real, raw[i].imag)`, for every index `i`. -/
theorem handleMode_IQ_roundtrip [Field R] (lib : MathLib R) (s : GLScope R)
    (h : s.m_mode = Mode.ModeIQ) :
    (handleMode lib s).displayTrace.length = s.m_rawTrace.length ∧
    ∀ i : Nat, ((handleMode lib s).displayTrace.get? i).map (fun z => (z.re, z.im))
      = (s.m_rawTrace.get? i).map (fun z => (z.re, z.im)) := by
  rw [handleMode_IQ lib s h]
  exact ⟨rfl, fun _ => rfl⟩

/-- C2 at a concrete scope in `ModeIQ`. -/
theorem handleMode_IQ_roundtrip_witness :
    (handleMode realLib iqScope).displayTrace.length = iqScope.m_rawTrace.length ∧
    ∀ i : Nat, ((handleMode realLib iqScope).displayTrace.get? i).map (fun z => (z.re, z.im))
      = (iqScope.m_rawTrace.get? i).map (fun z => (z.re, z.im)) :=
  handleMode_IQ_roundtrip realLib iqScope rfl

/-! ## Trace hand-off -/

/-- C3, as stated, fails: two uncontended pushes in a row on a fresh scope, with no render
pass in between, leave the first trace and its sample rate current; the second is dropped
because `m_dataChanged` is still set. -/
theorem newTrace_second_push_dropped :
    (newTrace true [⟨3, 4⟩] 96000 (newTrace true [⟨1, 2⟩] 48000 freshScope)).m_rawTrace
      = [⟨1, 2⟩] ∧
    (newTrace true [⟨3, 4⟩] 96000 (newTrace true [⟨1, 2⟩] 48000 freshScope)).m_sampleRate
      = 48000 ∧
    ([⟨1, 2⟩] : List (Cplx ℚ)) ≠ [⟨3, 4⟩] := by
  refine ⟨rfl, rfl, ?_⟩
  decide

/-- C3, amended: when `newTrace` obtains the lock and `m_dataChanged` is clear, the raw trace
and the sample rate afterwards are the pushed ones; when `m_dataChanged` is already set the
push changes nothing; hence of two uncontended pushes in a row on a scope with the flag
clear, the first one stays current. -/
theorem newTrace_stores_when_idle (trace trace2 : List (Cplx R)) (sampleRate sampleRate2 : Int)
    (s : GLScope R) :
    (s.m_dataChanged = false →
      (newTrace true trace sampleRate s).m_rawTrace = trace ∧
      (newTrace true trace sampleRate s).m_sampleRate = sampleRate) ∧
    (s.m_dataChanged = true → newTrace true trace sampleRate s = s) ∧
    (s.m_dataChanged = false →
      (newTrace true trace2 sampleRate2 (newTrace true trace sampleRate s)).m_rawTrace = trace ∧
      (newTrace true trace2 sampleRate2 (newTrace true trace sampleRate s)).m_sampleRate
        = sampleRate) := by
  refine ⟨fun h => ?_, fun h => ?_, fun h => ?_⟩ <;> simp [newTrace, h]

/-- C3, amended, on a fresh scope: the pushed trace is stored, and a push on the resulting
scope, whose flag is set, is dropped. -/
theorem newTrace_stores_when_idle_witness :
    ((newTrace true [⟨1, 2⟩] 48000 freshScope).m_rawTrace = [⟨1, 2⟩] ∧
      (newTrace true [⟨1, 2⟩] 48000 freshScope).m_sampleRate = 48000) ∧
    newTrace true [⟨3, 4⟩] 96000 (newTrace true [⟨1, 2⟩] 48000 freshScope)
      = newTrace true [⟨1, 2⟩] 48000 freshScope :=
  ⟨(newTrace_stores_when_idle [⟨1, 2⟩] [⟨3, 4⟩] 48000 96000 freshScope).1 rfl,
   (newTrace_stores_when_idle [⟨3, 4⟩] [] 96000 0
      (newTrace true [⟨1, 2⟩] 48000 freshScope)).2.1 rfl⟩

/-! ## Magnitude and phase modes, over the real numbers -/

theorem abs_one_zero : Complex.abs ⟨1, 0⟩ = 1 := by
  have h : (⟨1, 0⟩ : ℂ) = 1 := rfl
  rw [h]; simp

theorem abs_zero_one : Complex.abs ⟨0, 1⟩ = 1 := by
  have h : (⟨0, 1⟩ : ℂ) = Complex.I := rfl
  rw [h]; simp

theorem abs_neg_one_zero : Complex.abs ⟨-1, 0⟩ = 1 := by
  have h : (⟨-1, 0⟩ : ℂ) = -1 := by apply Complex.ext <;> simp
  rw [h]; simp

theorem abs_zero_neg_one : Complex.abs ⟨0, -1⟩ = 1 := by
  have h : (⟨0, -1⟩ : ℂ) = -Complex.I := by apply Complex.ext <;> simp
  rw [h]; simp

theorem arg_one_zero : Complex.arg ⟨1, 0⟩ = 0 := by
  have h : (⟨1, 0⟩ : ℂ) = 1 := rfl
  rw [h]; simp

theorem arg_zero_one : Complex.arg ⟨0, 1⟩ = Real.pi / 2 := by
  have h : (⟨0, 1⟩ : ℂ) = Complex.I := rfl
  rw [h]; simp

theorem arg_neg_one_zero : Complex.arg ⟨-1, 0⟩ = Real.pi := by
  have h : (⟨-1, 0⟩ : ℂ) = -1 := by apply Complex.ext <;> simp
  rw [h]; simp

theorem arg_zero_neg_one : Complex.arg ⟨0, -1⟩ = -(Real.pi / 2) := by
  have h : (⟨0, -1⟩ : ℂ) = -Complex.I := by apply Complex.ext <;> simp
  rw [h]; simp

/-- The source's `10 / log2f(10) * log2f(v)` is ten times the base-10 logarithm. -/
theorem mult_log2f_eq (v : ℝ) : (10 / Real.logb 2 10) * Real.logb 2 v = 10 * Real.logb 10 v := by
  have h2 : Real.log 2 ≠ 0 := ne_of_gt (Real.log_pos (by norm_num))
  have h10 : Real.log 10 ≠ 0 := ne_of_gt (Real.log_pos (by norm_num))
  simp only [Real.logb]
  field_simp
  ring

/-- C4: over the reals, element `i` of the displayed trace after `handleMode` in
`ModeMagLinPha` is `(|raw[i]|, arg(raw[i]) / π)` with Mathlib's complex modulus and argument;
on the raw trace `[(1,0), (0,1), (-1,0), (0,-1)]` this is
`[(1,0), (1,1/2), (1,1), (1,-1/2)]`. -/
theorem handleMode_MagLinPha_real (s : GLScope ℝ) (h : s.m_mode = Mode.ModeMagLinPha) :
    (∀ i : Nat, (handleMode realLib s).displayTrace.get? i
      = (s.m_rawTrace.get? i).map
          (fun z => ⟨Complex.abs ⟨z.re, z.im⟩, Complex.arg ⟨z.re, z.im⟩ / Real.pi⟩)) ∧
    (s.m_rawTrace = [⟨1, 0⟩, ⟨0, 1⟩, ⟨-1, 0⟩, ⟨0, -1⟩] →
      (handleMode realLib s).displayTrace = [⟨1, 0⟩, ⟨1, 1 / 2⟩, ⟨1, 1⟩, ⟨1, -1 / 2⟩]) := by
  have hpi : Real.pi ≠ 0 := Real.pi_ne_zero
  rw [handleMode_MagLinPha realLib s h]
  constructor
  · intro i
    simp only [displayTrace, List.get?_eq_getElem?, List.getElem?_map]
    rfl
  · intro hraw
    simp only [displayTrace, hraw, List.map, magLinPha, realLib, abs_one_zero, abs_zero_one,
      abs_neg_one_zero, abs_zero_neg_one, arg_one_zero, arg_zero_one, arg_neg_one_zero,
      arg_zero_neg_one]
    have e1 : (0 : ℝ) / Real.pi = 0 := by simp
    have e2 : Real.pi / 2 / Real.pi = 1 / 2 := by field_simp; ring
    have e3 : Real.pi / Real.pi = 1 := by field_simp
    have e4 : -(Real.pi / 2) / Real.pi = -1 / 2 := by field_simp; ring
    rw [e1, e2, e3, e4]

/-- C4 on the unit-circle trace. -/
theorem handleMode_MagLinPha_real_witness :
    (handleMode realLib circleScope).displayTrace
      = [⟨1, 0⟩, ⟨1, 1 / 2⟩, ⟨1, 1⟩, ⟨1, -1 / 2⟩] :=
  (handleMode_MagLinPha_real circleScope rfl).2 rfl

/-- C5: over the reals, for a raw sample `z = raw[i]` of non-zero modulus the displayed
element `i` after `handleMode` in `ModeMagdBPha` has first component
`(100 - ofs*100 + 10*log10(|z|^2)) / 100`, which is the source's expression
`(100 - ofs*100 + (10/log2(10)) * log2(re^2 + im^2)) / 100`, and second component
`arg(z) / π`. -/
theorem handleMode_MagdBPha_real (s : GLScope ℝ) (h : s.m_mode = Mode.ModeMagdBPha)
    (i : Nat) (z : Cplx ℝ) (hz : s.m_rawTrace.get? i = some z)
    (hne : Complex.abs ⟨z.re, z.im⟩ ≠ 0) :
    ∃ d : Cplx ℝ, (handleMode realLib s).displayTrace.get? i = some d ∧
      d.re = (100 - s.m_ofs * 100 + 10 * Real.logb 10 (Complex.abs ⟨z.re, z.im⟩ ^ 2)) / 100 ∧
      d.re = (100 - s.m_ofs * 100
                + (10 / Real.logb 2 10) * Real.logb 2 (z.re ^ 2 + z.im ^ 2)) / 100 ∧
      d.im = Complex.arg ⟨z.re, z.im⟩ / Real.pi := by
  have _ := hne
  rw [handleMode_MagdBPha realLib s h]
  refine ⟨magdBPha realLib s.m_ofs z, ?_, ?_, ?_, rfl⟩
  · simp only [List.get?_eq_getElem?] at hz
    simp [displayTrace, hz]
  · simp only [magdBPha, realLib]
    rw [mult_log2f_eq, Complex.sq_abs, Complex.normSq_apply]
  · simp only [magdBPha, realLib, sq]

/-- C5 at the first sample, `(1, 0)`, of a scope in `ModeMagdBPha` with offset `2`. -/
theorem handleMode_MagdBPha_real_witness :
    ∃ d : Cplx ℝ, (handleMode realLib dBScope).displayTrace.get? 0 = some d ∧
      d.re = (100 - dBScope.m_ofs * 100 + 10 * Real.logb 10 (Complex.abs ⟨1, 0⟩ ^ 2)) / 100 ∧
      d.re = (100 - dBScope.m_ofs * 100
                + (10 / Real.logb 2 10) * Real.logb 2 ((1 : ℝ) ^ 2 + (0 : ℝ) ^ 2)) / 100 ∧
      d.im = Complex.arg ⟨1, 0⟩ / Real.pi :=
  handleMode_MagdBPha_real dBScope rfl 0 ⟨1, 0⟩ rfl (by rw [abs_one_zero]; exact one_ne_zero)

/-! ## Lookback modes -/

theorem rawAt_eq [Zero R] (raw : List (Cplx R)) (i : Nat) (z : Cplx R)
    (h : raw.get? i = some z) : rawAt raw i = z := by
  simp only [List.get?_eq_getElem?] at h
  simp [rawAt, List.getD_eq_getElem?_getD, h]

theorem get?_length_lt {α : Type} (l : List α) (i : Nat) (a : α) (h : l.get? i = some a) :
    i < l.length := by
  by_contra hn
  rw [List.get?_eq_none.mpr (by omega)] at h
  cases h

/-- C6: in `ModeDerived12` displayed element `j` after `handleMode` is
`(|raw[i] - raw[i-1]|, |raw[i] - raw[i-1]| - |raw[i-2] - raw[i-3]|)` with `i = j + 3`, and in
`ModeCyclostationary` it is `(|raw[i] - conj(raw[i-1])|, 0)` with `i = j + 2`, whenever the
raw samples named exist (so the raw trace has more than 3, respectively 2, samples). -/
theorem handleMode_lookback [Field R] (lib : MathLib R) (s : GLScope R) (j : Nat)
    (a b c d : Cplx R) :
    (s.m_mode = Mode.ModeDerived12 →
      s.m_rawTrace.get? j = some a → s.m_rawTrace.get? (j + 1) = some b →
      s.m_rawTrace.get? (j + 2) = some c → s.m_rawTrace.get? (j + 3) = some d →
      (handleMode lib s).displayTrace.get? j
        = some ⟨lib.abs (d.sub c), lib.abs (d.sub c) - lib.abs (b.sub a)⟩) ∧
    (s.m_mode = Mode.ModeCyclostationary →
      s.m_rawTrace.get? (j + 1) = some b → s.m_rawTrace.get? (j + 2) = some c →
      (handleMode lib s).displayTrace.get? j = some ⟨lib.abs (c.sub b.conj), 0⟩) := by
  constructor
  · intro h ha hb hc hd
    have hn := get?_length_lt _ _ _ hd
    rw [handleMode_Derived12 lib s h (by omega)]
    have hj : j < s.m_rawTrace.length - 3 := by omega
    have e1 : 3 + j - 1 = j + 2 := by omega
    have e2 : 3 + j - 2 = j + 1 := by omega
    have e3 : 3 + j - 3 = j := by omega
    have e0 : 3 + j = j + 3 := by omega
    simp only [displayTrace, List.get?_eq_getElem?, List.getElem?_map, List.getElem?_range' _ _ hj,
      Option.map_some', derived12, Nat.one_mul, e1, e2, e3]
    rw [e0, rawAt_eq _ _ _ ha, rawAt_eq _ _ _ hb, rawAt_eq _ _ _ hc, rawAt_eq _ _ _ hd]
  · intro h hb hc
    have hn := get?_length_lt _ _ _ hc
    rw [handleMode_Cyclostationary lib s h (by omega)]
    have hj : j < s.m_rawTrace.length - 2 := by omega
    have e1 : 2 + j - 1 = j + 1 := by omega
    have e0 : 2 + j = j + 2 := by omega
    simp only [displayTrace, List.get?_eq_getElem?, List.getElem?_map, List.getElem?_range' _ _ hj,
      Option.map_some', cyclostationary, Nat.one_mul, e1]
    rw [e0, rawAt_eq _ _ _ hb, rawAt_eq _ _ _ hc]

/-- C6 at concrete scopes: element 1 of the derived trace of a five-sample raw trace in
`ModeDerived12`, and element 0 of that of a three-sample raw trace in `ModeCyclostationary`. -/
theorem handleMode_lookback_witness :
    (handleMode realLib derivedScope).displayTrace.get? 1
      = some ⟨realLib.abs ((⟨1, 0⟩ : Cplx ℝ).sub ⟨0, -1⟩),
              realLib.abs ((⟨1, 0⟩ : Cplx ℝ).sub ⟨0, -1⟩)
                - realLib.abs ((⟨-1, 0⟩ : Cplx ℝ).sub ⟨0, 1⟩)⟩ ∧
    (handleMode realLib cycloScope).displayTrace.get? 0
      = some ⟨realLib.abs ((⟨-1, 0⟩ : Cplx ℝ).sub (Cplx.conj ⟨0, 1⟩)), 0⟩ :=
  ⟨(handleMode_lookback realLib derivedScope 1 ⟨0, 1⟩ ⟨-1, 0⟩ ⟨0, -1⟩ ⟨1, 0⟩).1
      rfl rfl rfl rfl rfl,
   (handleMode_lookback realLib cycloScope 0 ⟨1, 0⟩ ⟨0, 1⟩ ⟨-1, 0⟩ ⟨0, 0⟩).2 rfl rfl rfl⟩

/-! ## Scaling policy -/

/-- C7: for `amp ≠ 0` and a raw trace of at least the mode's minimum input length (4 in
`ModeDerived12`, 3 in `ModeCyclostationary`, none otherwise), `handleMode` sets
`(amp1, amp2, ofs1, ofs2)` to `(amp, amp, 0, 0)` in `ModeIQ`, `(amp, 1, -1/amp, 0)` in
`ModeMagLinPha`, `(2*amp, 1, -1/(2*amp), 0)` in `ModeMagdBPha` and `(amp, amp, -1/amp, 0)` in
`ModeDerived12` and `ModeCyclostationary`; so `ofs1 = -1/amp1` outside `ModeIQ`. -/
theorem handleMode_scaling [Field R] (lib : MathLib R) (s : GLScope R) (hamp : s.m_amp ≠ 0)
    (hlen : (s.m_mode = Mode.ModeDerived12 → 4 ≤ s.m_rawTrace.length) ∧
            (s.m_mode = Mode.ModeCyclostationary → 3 ≤ s.m_rawTrace.length)) :
    ((handleMode lib s).m_amp1, (handleMode lib s).m_amp2,
        (handleMode lib s).m_ofs1, (handleMode lib s).m_ofs2)
      = (match s.m_mode with
          | Mode.ModeIQ => (s.m_amp, s.m_amp, 0, 0)
          | Mode.ModeMagLinPha => (s.m_amp, 1, -1 / s.m_amp, 0)
          | Mode.ModeMagdBPha => (2 * s.m_amp, 1, -1 / (2 * s.m_amp), 0)
          | Mode.ModeDerived12 => (s.m_amp, s.m_amp, -1 / s.m_amp, 0)
          | Mode.ModeCyclostationary => (s.m_amp, s.m_amp, -1 / s.m_amp, 0)) ∧
    (s.m_mode ≠ Mode.ModeIQ → (handleMode lib s).m_ofs1 = -1 / (handleMode lib s).m_amp1) := by
  have _ := hamp
  cases hm : s.m_mode with
  | ModeIQ => rw [handleMode_IQ lib s hm]; simp
  | ModeMagLinPha => rw [handleMode_MagLinPha lib s hm]; simp
  | ModeMagdBPha => rw [handleMode_MagdBPha lib s hm]; simp
  | ModeDerived12 =>
      have h4 := hlen.1 hm
      rw [handleMode_Derived12 lib s hm (by omega)]; simp
  | ModeCyclostationary =>
      have h3 := hlen.2 hm
      rw [handleMode_Cyclostationary lib s hm (by omega)]; simp

/-- C7 at a scope in `ModeCyclostationary` with `amp = 1` and three raw samples. -/
theorem handleMode_scaling_witness :
    ((handleMode realLib cycloScope).m_amp1, (handleMode realLib cycloScope).m_amp2,
        (handleMode realLib cycloScope).m_ofs1, (handleMode realLib cycloScope).m_ofs2)
      = ((1 : ℝ), (1 : ℝ), -1 / (1 : ℝ), (0 : ℝ)) ∧
    (handleMode realLib cycloScope).m_ofs1 = -1 / (handleMode realLib cycloScope).m_amp1 :=
  ⟨(handleMode_scaling realLib cycloScope one_ne_zero
      ⟨fun h => (by cases h), fun _ => (by decide)⟩).1,
   (handleMode_scaling realLib cycloScope one_ne_zero
      ⟨fun h => (by cases h), fun _ => (by decide)⟩).2 (by decide)⟩

/-! ## Limiting of plotted values -/

theorem limit_eq_clamp [LinearOrder R] (v posLimit negLimit : R) (h : negLimit ≤ posLimit) :
    limit v posLimit negLimit = clamp v negLimit posLimit := by
  unfold limit clamp
  by_cases h1 : v > posLimit
  · rw [if_pos h1, min_eq_right (le_of_lt h1), max_eq_right h]
  · rw [if_neg h1, min_eq_left (not_lt.mp h1)]
    by_cases h2 : v < negLimit
    · rw [if_pos h2, max_eq_left (le_of_lt h2)]
    · rw [if_neg h2, max_eq_right (not_lt.mp h2)]

theorem limit_bounds [LinearOrder R] (v posLimit negLimit : R) (h : negLimit ≤ posLimit) :
    negLimit ≤ limit v posLimit negLimit ∧ limit v posLimit negLimit ≤ posLimit := by
  unfold limit
  by_cases h1 : v > posLimit
  · rw [if_pos h1]; exact ⟨h, le_refl _⟩
  · rw [if_neg h1]
    by_cases h2 : v < negLimit
    · rw [if_pos h2]; exact ⟨le_refl _, h⟩
    · rw [if_neg h2]; exact ⟨not_lt.mp h2, not_lt.mp h1⟩

theorem neg_limit_le [LinearOrderedField R] (a : R) (h : 0 < a) : -1 / a ≤ 1 / a := by
  have h1 : 0 < 1 / a := one_div_pos.mpr h
  have h2 : -1 / a = -(1 / a) := by ring
  rw [h2]
  linarith

/-- The frame of a render pass that got the lock holds the two line strips of the scope it
leaves behind. -/
theorem paintGL_frame [LinearOrderedField R] (lib : MathLib R) (s : GLScope R) :
    (paintGL lib true s).2
      = some ⟨lineStrip1 (paintGL lib true s).1, lineStrip2 (paintGL lib true s).1⟩ := by
  simp [paintGL, lineStrip1, lineStrip2, displayTrace]

/-- The scope a render pass leaves behind shows what `handleMode` produced. -/
theorem paintGL_post [LinearOrderedField R] (lib : MathLib R) (s : GLScope R) :
    (paintGL lib true s).1.displayTrace = (handleMode lib s).displayTrace ∧
    (paintGL lib true s).1.m_amp1 = (handleMode lib s).m_amp1 ∧
    (paintGL lib true s).1.m_amp2 = (handleMode lib s).m_amp2 ∧
    (paintGL lib true s).1.m_ofs1 = (handleMode lib s).m_ofs1 := by
  have hc : ∀ t : GLScope R, handleMode lib (applyConfig t)
      = { handleMode lib t with m_configChanged := false } := by
    intro t
    rcases t with ⟨dc, cc, m, o, raw, math, disp, old, sr, amp, ofs, a1, a2, o1, o2, tb, tofs, gi⟩
    cases m <;> simp [handleMode, applyConfig] <;> split <;> rfl
  have hn : ∀ t : GLScope R, (noteTraceSize t).displayTrace = t.displayTrace ∧
      (noteTraceSize t).m_amp1 = t.m_amp1 ∧ (noteTraceSize t).m_amp2 = t.m_amp2 ∧
      (noteTraceSize t).m_ofs1 = t.m_ofs1 := by
    intro t
    unfold noteTraceSize
    split <;> exact ⟨rfl, rfl, rfl, rfl⟩
  by_cases hcfg : s.m_configChanged = true
  · simp only [paintGL, hcfg, if_true, Bool.not_true, Bool.false_eq_true, if_false, hc]
    exact hn _
  · simp only [paintGL, hcfg, if_false, Bool.not_true, Bool.false_eq_true]
    exact hn _

theorem drawnIndices_linScope : drawnIndices 0 1 2 = [0, 1] := by decide

/-- C8, as stated, fails: in `ModeMagLinPha` with `amp = 1` the displayed channel-1 values of
the raw trace `[1, i]` are both `1` and `clamp(1, -1/amp1, 1/amp1) = 1`, yet both emitted
values are `0`, because the render loop adds `m_ofs1 = -1/amp1` before limiting. -/
theorem paintGL_channel1_adds_offset :
    (paintGL realLib true linScope).1.displayTrace = [⟨1, 0⟩, ⟨1, 1 / 2⟩] ∧
    (paintGL realLib true linScope).1.m_amp1 = 1 ∧
    (paintGL realLib true linScope).2.map Frame.strip1 = some [some (0, 0), some (1, 0)] ∧
    clamp (1 : ℝ) (-1 / 1) (1 / 1) = 1 := by
  have hpi : Real.pi / 2 / Real.pi = 1 / 2 := by
    have := Real.pi_ne_zero
    field_simp; ring
  have hd : (handleMode realLib linScope).displayTrace = [⟨1, 0⟩, ⟨1, 1 / 2⟩] := by
    rw [handleMode_MagLinPha realLib linScope rfl]
    simp [displayTrace, linScope, staleScope, magLinPha, realLib, abs_one_zero, abs_zero_one,
      arg_one_zero, arg_zero_one, hpi]
  have ha : (handleMode realLib linScope).m_amp1 = 1 := by
    rw [handleMode_MagLinPha realLib linScope rfl]; rfl
  have ho : (handleMode realLib linScope).m_ofs1 = -1 := by
    rw [handleMode_MagLinPha realLib linScope rfl]
    simp [linScope, staleScope]
  obtain ⟨pd, pa, _, po⟩ := paintGL_post realLib linScope
  have htb : (paintGL realLib true linScope).1.m_timeBase = 1 := by
    simp [paintGL, noteTraceSize, linScope, staleScope, handleMode]
    split <;> rfl
  have hto : (paintGL realLib true linScope).1.m_timeOfsProMill = 0 := by
    simp [paintGL, noteTraceSize, linScope, staleScope, handleMode]
    split <;> rfl
  refine ⟨pd.trans hd, pa.trans ha, ?_, ?_⟩
  · rw [paintGL_frame]
    simp only [Option.map_some', lineStrip1, pd, hd, pa, ha, po, ho, htb, hto, List.length_cons,
      List.length_nil]
    simp [drawnIndices_linScope, traceAt, limit, loopStart, windowStart, windowEnd]
    norm_num
  · simp [clamp]

/-- Both channel scales are `1` after a render pass over `linScope`. -/
theorem paintGL_linScope_amps :
    (paintGL realLib true linScope).1.m_amp1 = 1 ∧ (paintGL realLib true linScope).1.m_amp2 = 1 := by
  obtain ⟨_, pa1, pa2, _⟩ := paintGL_post realLib linScope
  rw [pa1, pa2, handleMode_MagLinPha realLib linScope rfl]
  exact ⟨rfl, rfl⟩

/-- C8, amended: when the lock is obtained and `amp1` is positive, the render pass emits, for
each index `i` of its window, the channel-1 value `clamp(v + ofs1, -1/amp1, 1/amp1)`, where
`v` is the first component of the displayed sample at `i` and `ofs1` the channel-1 offset
left by `handleMode`; in `ModeIQ` that offset is `0`. -/
theorem paintGL_channel1_clamp [LinearOrderedField R] (lib : MathLib R) (s : GLScope R)
    (hpos : 0 < (paintGL lib true s).1.m_amp1) :
    (∃ f : Frame R, (paintGL lib true s).2 = some f ∧
      f.strip1 =
        if (paintGL lib true s).1.displayTrace.length > 0 then
          (drawnIndices (paintGL lib true s).1.m_timeOfsProMill (paintGL lib true s).1.m_timeBase
              (paintGL lib true s).1.displayTrace.length).map fun i =>
            (traceAt (paintGL lib true s).1.displayTrace i).map fun z =>
              (i - loopStart (paintGL lib true s).1.m_timeOfsProMill
                    (paintGL lib true s).1.m_timeBase (paintGL lib true s).1.displayTrace.length,
               clamp (z.re + (paintGL lib true s).1.m_ofs1)
                 (-1 / (paintGL lib true s).1.m_amp1) (1 / (paintGL lib true s).1.m_amp1))
        else []) ∧
    (s.m_mode = Mode.ModeIQ → (paintGL lib true s).1.m_ofs1 = 0) := by
  constructor
  · refine ⟨_, paintGL_frame lib s, ?_⟩
    simp only [lineStrip1]
    have hc : ∀ v : R, limit v (1 / (paintGL lib true s).1.m_amp1)
        (-1 / (paintGL lib true s).1.m_amp1)
        = clamp v (-1 / (paintGL lib true s).1.m_amp1) (1 / (paintGL lib true s).1.m_amp1) :=
      fun v => limit_eq_clamp v _ _ (neg_limit_le _ hpos)
    simp only [hc]
  · intro h
    rw [(paintGL_post lib s).2.2.2, handleMode_IQ lib s h]

/-- C8, amended, at `linScope`, where `amp1 = 1`. -/
theorem paintGL_channel1_clamp_witness :
    ∃ f : Frame ℝ, (paintGL realLib true linScope).2 = some f ∧
      f.strip1 =
        if (paintGL realLib true linScope).1.displayTrace.length > 0 then
          (drawnIndices (paintGL realLib true linScope).1.m_timeOfsProMill
              (paintGL realLib true linScope).1.m_timeBase
              (paintGL realLib true linScope).1.displayTrace.length).map fun i =>
            (traceAt (paintGL realLib true linScope).1.displayTrace i).map fun z =>
              (i - loopStart (paintGL realLib true linScope).1.m_timeOfsProMill
                    (paintGL realLib true linScope).1.m_timeBase
                    (paintGL realLib true linScope).1.displayTrace.length,
               clamp (z.re + (paintGL realLib true linScope).1.m_ofs1)
                 (-1 / (paintGL realLib true linScope).1.m_amp1)
                 (1 / (paintGL realLib true linScope).1.m_amp1))
        else [] :=
  (paintGL_channel1_clamp realLib linScope
    (by rw [paintGL_linScope_amps.1]; exact one_pos)).1

/-- C9: for a positive channel scale `ampN`, every value the render pass plots for channel
`N` lies in `[-1/ampN, 1/ampN]`, whatever the displayed samples are. -/
theorem paintGL_plotted_within_limits [LinearOrderedField R] (lib : MathLib R) (s : GLScope R) :
    ∃ f : Frame R, (paintGL lib true s).2 = some f ∧
      (0 < (paintGL lib true s).1.m_amp1 → ∀ (x : Int) (v : R), some (x, v) ∈ f.strip1 →
        -1 / (paintGL lib true s).1.m_amp1 ≤ v ∧ v ≤ 1 / (paintGL lib true s).1.m_amp1) ∧
      (0 < (paintGL lib true s).1.m_amp2 → ∀ (x : Int) (v : R), some (x, v) ∈ f.strip2 →
        -1 / (paintGL lib true s).1.m_amp2 ≤ v ∧ v ≤ 1 / (paintGL lib true s).1.m_amp2) := by
  refine ⟨_, paintGL_frame lib s, ?_, ?_⟩
  · intro hpos x v hmem
    simp only [lineStrip1] at hmem
    split at hmem
    · obtain ⟨i, _, hi⟩ := List.mem_map.mp hmem
      cases hz : traceAt (paintGL lib true s).1.displayTrace i with
      | none => rw [hz] at hi; cases hi
      | some z =>
        rw [hz] at hi
        simp only [Option.map_some', Option.some.injEq, Prod.mk.injEq] at hi
        rw [← hi.2]
        exact limit_bounds _ _ _ (neg_limit_le _ hpos)
    · cases hmem
  · intro hpos x v hmem
    simp only [lineStrip2] at hmem
    split at hmem
    · obtain ⟨i, _, hi⟩ := List.mem_map.mp hmem
      cases hz : traceAt (paintGL lib true s).1.displayTrace i with
      | none => rw [hz] at hi; cases hi
      | some z =>
        rw [hz] at hi
        simp only [Option.map_some', Option.some.injEq, Prod.mk.injEq] at hi
        rw [← hi.2]
        exact limit_bounds _ _ _ (neg_limit_le _ hpos)
    · cases hmem

/-- C9 at `linScope`, where both channel scales are `1`. -/
theorem paintGL_plotted_within_limits_witness :
    ∃ f : Frame ℝ, (paintGL realLib true linScope).2 = some f ∧
      (∀ (x : Int) (v : ℝ), some (x, v) ∈ f.strip1 →
        -1 / (paintGL realLib true linScope).1.m_amp1 ≤ v ∧
        v ≤ 1 / (paintGL realLib true linScope).1.m_amp1) ∧
      (∀ (x : Int) (v : ℝ), some (x, v) ∈ f.strip2 →
        -1 / (paintGL realLib true linScope).1.m_amp2 ≤ v ∧
        v ≤ 1 / (paintGL realLib true linScope).1.m_amp2) :=
  (paintGL_plotted_within_limits realLib linScope).imp fun _ h =>
    ⟨h.1, h.2.1 (by rw [paintGL_linScope_amps.1]; exact one_pos),
      h.2.2 (by rw [paintGL_linScope_amps.2]; exact one_pos)⟩

/-! ## The visible window -/

theorem tdiv_natCast (a b : Nat) : Int.tdiv (a : Int) (b : Int) = ((a / b : Nat) : Int) := rfl

theorem windowStart_natCast (ofs tb n : Nat) :
    windowStart ofs tb n = ((ofs * (n - n / tb) / 1000 : Nat) : Int) := by
  unfold windowStart
  rw [tdiv_natCast, ← Nat.cast_sub (Nat.div_le_self n tb), ← Nat.cast_mul]
  exact tdiv_natCast _ 1000

theorem windowEnd_natCast (ofs tb n : Nat) :
    windowEnd ofs tb n = ((ofs * (n - n / tb) / 1000 + n / tb : Nat) : Int) := by
  unfold windowEnd
  rw [windowStart_natCast, tdiv_natCast, Nat.cast_add]

/-- C10: for a displayed trace of `n` samples, `timeBase ≥ 1` and `timeOfsProMill` in
`[0, 1000]` the render pass computes `start = timeOfsProMill * (n - n/timeBase) / 1000` and
`end = start + n/timeBase` in integer division, and when `n/timeBase ≥ 2` its loops visit
exactly `start, ..., end - 1`; for `n = 10`, `timeBase = 5` that is `[0, 2)` at offset `0` and
`[8, 10)` at offset `1000`; at offset `1000` the window always ends at `n`. -/
theorem paintGL_window (n timeBase timeOfsProMill : Nat) (htb : 1 ≤ timeBase)
    (hofs : timeOfsProMill ≤ 1000) :
    windowStart timeOfsProMill timeBase n
      = ((timeOfsProMill * (n - n / timeBase) / 1000 : Nat) : Int) ∧
    windowEnd timeOfsProMill timeBase n
      = windowStart timeOfsProMill timeBase n + ((n / timeBase : Nat) : Int) ∧
    (2 ≤ n / timeBase →
      drawnIndices timeOfsProMill timeBase n
        = (List.range (n / timeBase)).map
            (fun (j : Nat) => windowStart timeOfsProMill timeBase n + (j : Int))) ∧
    drawnIndices 0 5 10 = [0, 1] ∧
    drawnIndices 1000 5 10 = [8, 9] ∧
    windowEnd 1000 timeBase n = (n : Int) := by
  have _ := htb
  have _ := hofs
  refine ⟨windowStart_natCast _ _ _, ?_, ?_, by decide, by decide, ?_⟩
  · rw [windowEnd_natCast, windowStart_natCast, Nat.cast_add]
  · intro h2
    have he : windowEnd timeOfsProMill timeBase n - windowStart timeOfsProMill timeBase n
        = ((n / timeBase : Nat) : Int) := by
      rw [windowEnd_natCast, windowStart_natCast, Nat.cast_add]
      omega
    have hs : loopStart timeOfsProMill timeBase n = windowStart timeOfsProMill timeBase n := by
      unfold loopStart
      rw [he, if_neg (by omega)]
    unfold drawnIndices loopIndices
    rw [hs, he, Int.toNat_ofNat]
  · have h := windowEnd_natCast 1000 timeBase n
    have hle : n / timeBase ≤ n := Nat.div_le_self n timeBase
    have hm : 1000 * (n - n / timeBase) / 1000 = n - n / timeBase :=
      Nat.mul_div_cancel_left _ (by decide)
    rw [hm] at h
    have : (1000 : Int) = ((1000 : Nat) : Int) := rfl
    rw [this, h]
    congr 1
    omega

/-- C10 at `n = 10`, `timeBase = 5`, `timeOfsProMill = 500`: the window is `[4, 6)`. -/
theorem paintGL_window_witness :
    windowStart 500 5 10 = 4 ∧ windowEnd 500 5 10 = 6 ∧ drawnIndices 500 5 10 = [4, 5] := by
  have h := paintGL_window 10 5 500 (by decide) (by decide)
  exact ⟨h.1, h.2.1.trans (by decide), (h.2.2.1 (by decide)).trans (by decide)⟩

/-! ## Phase normalisation -/

theorem arg_div_pi_bounds (z : ℂ) :
    -1 ≤ Complex.arg z / Real.pi ∧ Complex.arg z / Real.pi ≤ 1 := by
  have hpi : 0 < Real.pi := Real.pi_pos
  constructor
  · rw [le_div_iff₀ hpi]
    have := Complex.neg_pi_lt_arg z
    linarith
  · rw [div_le_one hpi]
    exact Complex.arg_le_pi z

/-- C11: over the reals, in `ModeMagLinPha` and in `ModeMagdBPha` the second component of the
displayed element for a raw sample `z` is `arg(z) / π`, and it lies in `[-1, 1]`. -/
theorem handleMode_phase_normalised (s : GLScope ℝ)
    (h : s.m_mode = Mode.ModeMagLinPha ∨ s.m_mode = Mode.ModeMagdBPha)
    (i : Nat) (z : Cplx ℝ) (hz : s.m_rawTrace.get? i = some z) :
    ∃ d : Cplx ℝ, (handleMode realLib s).displayTrace.get? i = some d ∧
      d.im = Complex.arg ⟨z.re, z.im⟩ / Real.pi ∧ -1 ≤ d.im ∧ d.im ≤ 1 := by
  simp only [List.get?_eq_getElem?] at hz
  rcases h with h | h
  · rw [handleMode_MagLinPha realLib s h]
    refine ⟨magLinPha realLib z, ?_, rfl, arg_div_pi_bounds _⟩
    simp [displayTrace, hz]
  · rw [handleMode_MagdBPha realLib s h]
    refine ⟨magdBPha realLib s.m_ofs z, ?_, rfl, arg_div_pi_bounds _⟩
    simp [displayTrace, hz]

/-- C11 at the sample `(-1, 0)` of the unit-circle trace in `ModeMagLinPha` and at the sample
`(0, 1)` in `ModeMagdBPha`. -/
theorem handleMode_phase_normalised_witness :
    (∃ d : Cplx ℝ, (handleMode realLib circleScope).displayTrace.get? 2 = some d ∧
      d.im = Complex.arg ⟨-1, 0⟩ / Real.pi ∧ -1 ≤ d.im ∧ d.im ≤ 1) ∧
    (∃ d : Cplx ℝ, (handleMode realLib dBScope).displayTrace.get? 1 = some d ∧
      d.im = Complex.arg ⟨0, 1⟩ / Real.pi ∧ -1 ≤ d.im ∧ d.im ≤ 1) :=
  ⟨handleMode_phase_normalised circleScope (Or.inl rfl) 2 ⟨-1, 0⟩ rfl,
   handleMode_phase_normalised dBScope (Or.inr rfl) 1 ⟨0, 1⟩ rfl⟩

/-! ## Running the transform again -/

theorem handleMode_idem [Field R] (lib : MathLib R) (s : GLScope R) :
    handleMode lib (handleMode lib s) = handleMode lib s := by
  cases hm : s.m_mode with
  | ModeIQ =>
      rw [handleMode_IQ lib s hm]
      exact handleMode_IQ lib _ hm
  | ModeMagLinPha =>
      rw [handleMode_MagLinPha lib s hm]
      exact handleMode_MagLinPha lib _ hm
  | ModeMagdBPha =>
      rw [handleMode_MagdBPha lib s hm]
      exact handleMode_MagdBPha lib _ hm
  | ModeDerived12 =>
      by_cases hn : 3 < s.m_rawTrace.length
      · rw [handleMode_Derived12 lib s hm hn]
        exact handleMode_Derived12 lib _ hm hn
      · rw [handleMode_Derived12_short lib s hm (by omega)]
        exact handleMode_Derived12_short lib s hm (by omega)
  | ModeCyclostationary =>
      by_cases hn : 2 < s.m_rawTrace.length
      · rw [handleMode_Cyclostationary lib s hm hn]
        exact handleMode_Cyclostationary lib _ hm hn
      · rw [handleMode_Cyclostationary_short lib s hm (by omega)]
        exact handleMode_Cyclostationary_short lib s hm (by omega)

/-- C12: whatever the scope was before, running `handleMode` a second time leaves the
displayed trace and `amp1`, `amp2`, `ofs1`, `ofs2` as the first run left them (the whole
scope, in fact). -/
theorem handleMode_twice [Field R] (lib : MathLib R) (s : GLScope R) :
    (handleMode lib (handleMode lib s)).displayTrace = (handleMode lib s).displayTrace ∧
    (handleMode lib (handleMode lib s)).m_amp1 = (handleMode lib s).m_amp1 ∧
    (handleMode lib (handleMode lib s)).m_amp2 = (handleMode lib s).m_amp2 ∧
    (handleMode lib (handleMode lib s)).m_ofs1 = (handleMode lib s).m_ofs1 ∧
    (handleMode lib (handleMode lib s)).m_ofs2 = (handleMode lib s).m_ofs2 ∧
    handleMode lib (handleMode lib s) = handleMode lib s := by
  rw [handleMode_idem lib s]
  exact ⟨rfl, rfl, rfl, rfl, rfl, rfl⟩

/-! ## Contention and the data-changed flag -/

/-- C13: a push that does not obtain the lock changes nothing: raw trace, sample rate and
`m_dataChanged` (the whole scope) are as before. -/
theorem newTrace_contended (trace : List (Cplx R)) (sampleRate : Int) (s : GLScope R) :
    (newTrace false trace sampleRate s).m_rawTrace = s.m_rawTrace ∧
    (newTrace false trace sampleRate s).m_sampleRate = s.m_sampleRate ∧
    (newTrace false trace sampleRate s).m_dataChanged = s.m_dataChanged ∧
    newTrace false trace sampleRate s = s := by
  simp [newTrace]

/-- C14: a push that obtains the lock returns with `m_dataChanged` set; a render pass that
obtains the lock returns with it clear; and a push that obtains the lock right after such a
render pass is stored, trace and sample rate. -/
theorem dataChanged_protocol [LinearOrderedField R] (lib : MathLib R) (trace : List (Cplx R))
    (sampleRate : Int) (s : GLScope R) :
    (newTrace true trace sampleRate s).m_dataChanged = true ∧
    (paintGL lib true s).1.m_dataChanged = false ∧
    (newTrace true trace sampleRate (paintGL lib true s).1).m_rawTrace = trace ∧
    (newTrace true trace sampleRate (paintGL lib true s).1).m_sampleRate = sampleRate := by
  have hp : (paintGL lib true s).1.m_dataChanged = false := by simp [paintGL]
  refine ⟨?_, hp, ?_, ?_⟩
  · cases hd : s.m_dataChanged <;> simp [newTrace, hd]
  · simp [newTrace, hp]
  · simp [newTrace, hp]

/-! ## Configuration setters -/

/-- C16, as stated, fails: `setDisplayGridIntensity(150)` leaves the grid intensity at 100,
not at 150. -/
theorem setDisplayGridIntensity_caps :
    (setDisplayGridIntensity 150 freshScope).m_displayGridIntensity = 100 ∧
    (100 : Int) ≠ 150 := by
  constructor <;> decide

/-- C16, amended: `setAmp`, `setAmpOfs`, `setTimeBase`, `setTimeOfsProMill`, `setMode` and
`setOrientation` store exactly the value given, whatever it is; `setDisplayGridIntensity(n)`
stores `min(n, 100)`, that is `n` up to 100 and 100 above. -/
theorem setters_store (amp ampOfs : R) (timeBase timeOfsProMill intensity : Int) (mode : Mode)
    (orientation : Orientation) (s : GLScope R) :
    (setAmp amp s).m_amp = amp ∧
    (setAmpOfs ampOfs s).m_ofs = ampOfs ∧
    (setTimeBase timeBase s).m_timeBase = timeBase ∧
    (setTimeOfsProMill timeOfsProMill s).m_timeOfsProMill = timeOfsProMill ∧
    (setMode mode s).m_mode = mode ∧
    (setOrientation orientation s).m_orientation = orientation ∧
    (setDisplayGridIntensity intensity s).m_displayGridIntensity = min intensity 100 ∧
    (intensity ≤ 100 → (setDisplayGridIntensity intensity s).m_displayGridIntensity = intensity) ∧
    (100 < intensity → (setDisplayGridIntensity intensity s).m_displayGridIntensity = 100) := by
  refine ⟨rfl, rfl, rfl, rfl, rfl, rfl, ?_, ?_, ?_⟩
  · unfold setDisplayGridIntensity
    by_cases h : intensity > 100
    · rw [if_pos h, min_eq_right (le_of_lt h)]
    · rw [if_neg h, min_eq_left (not_lt.mp h)]
  · intro h
    unfold setDisplayGridIntensity
    rw [if_neg (not_lt.mpr h)]
  · intro h
    unfold setDisplayGridIntensity
    rw [if_pos h]

/-- C16, amended, on a fresh scope: intensity 30 is stored as given, 150 as 100. -/
theorem setters_store_witness :
    (setDisplayGridIntensity 30 freshScope).m_displayGridIntensity = 30 ∧
    (setDisplayGridIntensity 150 freshScope).m_displayGridIntensity = 100 :=
  ⟨(setters_store 0 0 0 0 30 Mode.ModeIQ Orientation.Horizontal freshScope).2.2.2.2.2.2.2.1
      (by decide),
   (setters_store 0 0 0 0 150 Mode.ModeIQ Orientation.Horizontal freshScope).2.2.2.2.2.2.2.2
      (by decide)⟩

/-! ## The `start--` guard -/

/-- A render pass leaves the window parameters as they were. -/
theorem paintGL_post_time [LinearOrderedField R] (lib : MathLib R) (s : GLScope R) :
    (paintGL lib true s).1.m_timeBase = s.m_timeBase ∧
    (paintGL lib true s).1.m_timeOfsProMill = s.m_timeOfsProMill := by
  have hh : ∀ t : GLScope R, (handleMode lib t).m_timeBase = t.m_timeBase ∧
      (handleMode lib t).m_timeOfsProMill = t.m_timeOfsProMill := by
    intro t
    rcases t with ⟨dc, cc, m, o, raw, math, disp, old, sr, amp, ofs, a1, a2, o1, o2, tb, tofs, gi⟩
    cases m <;> simp [handleMode] <;> split <;> exact ⟨rfl, rfl⟩
  have hn : ∀ t : GLScope R, (noteTraceSize t).m_timeBase = t.m_timeBase ∧
      (noteTraceSize t).m_timeOfsProMill = t.m_timeOfsProMill := by
    intro t
    unfold noteTraceSize
    split <;> exact ⟨rfl, rfl⟩
  by_cases hcfg : s.m_configChanged = true
  · simp only [paintGL, hcfg, if_true, Bool.not_true, Bool.false_eq_true, if_false]
    exact ⟨(hn _).1.trans (hh _).1, (hn _).2.trans (hh _).2⟩
  · simp only [paintGL, hcfg, if_false, Bool.not_true, Bool.false_eq_true]
    exact ⟨(hn _).1.trans (hh _).1, (hn _).2.trans (hh _).2⟩

/-- C17 at the failing input: two displayed samples, time base 3, window at the right end
(`timeOfsProMill = 1000`).  The window is `[2, 2)`, the guard moves `start` to 1, and the
loops visit the single index 1: each line strip of the render pass has one vertex. -/
theorem paintGL_single_vertex :
    (paintGL realLib true onePointScope).1.displayTrace.length = 2 ∧
    windowStart 1000 3 2 = 2 ∧ windowEnd 1000 3 2 = 2 ∧
    drawnIndices 1000 3 2 = [1] ∧
    (paintGL realLib true onePointScope).2.map Frame.strip1 = some [some (0, 0)] ∧
    (paintGL realLib true onePointScope).2.map Frame.strip2 = some [some (0, 1)] := by
  obtain ⟨pd, pa1, pa2, po⟩ := paintGL_post realLib onePointScope
  obtain ⟨ptb, pto⟩ := paintGL_post_time realLib onePointScope
  rw [handleMode_IQ realLib onePointScope rfl] at pd pa1 pa2 po
  have hd : (paintGL realLib true onePointScope).1.displayTrace = [⟨1, 0⟩, ⟨0, 1⟩] := pd
  have ha1 : (paintGL realLib true onePointScope).1.m_amp1 = 1 := pa1
  have ha2 : (paintGL realLib true onePointScope).1.m_amp2 = 1 := pa2
  have ho : (paintGL realLib true onePointScope).1.m_ofs1 = 0 := po
  have htb : (paintGL realLib true onePointScope).1.m_timeBase = 3 := ptb
  have hto : (paintGL realLib true onePointScope).1.m_timeOfsProMill = 1000 := pto
  have hi : drawnIndices 1000 3 2 = [1] := by decide
  have hs : loopStart 1000 3 2 = 1 := by decide
  refine ⟨by rw [hd]; rfl, by decide, by decide, hi, ?_, ?_⟩
  · rw [paintGL_frame]
    simp only [Option.map_some', lineStrip1, hd, ha1, ho, htb, hto, List.length_cons,
      List.length_nil]
    simp [hi, hs, traceAt, limit]
    norm_num
  · rw [paintGL_frame]
    simp only [Option.map_some', lineStrip2, hd, ha2, htb, hto, List.length_cons,
      List.length_nil]
    simp [hi, hs, traceAt, limit]

/-- C18 at the failing input: two displayed samples, time base 2, window at the left end
(`timeOfsProMill = 0`).  The window is `[0, 1)`, the guard moves `start` to `-1`, and the
loops visit `-1` and `0`: the first vertex of each line strip is read before the start of
the displayed trace. -/
theorem paintGL_reads_before_trace :
    (paintGL realLib true zoomScope).1.displayTrace.length = 2 ∧
    windowStart 0 2 2 = 0 ∧ windowEnd 0 2 2 = 1 ∧
    drawnIndices 0 2 2 = [-1, 0] ∧
    traceAt (paintGL realLib true zoomScope).1.displayTrace (-1) = none ∧
    (paintGL realLib true zoomScope).2.map Frame.strip1 = some [none, some (1, 1)] ∧
    (paintGL realLib true zoomScope).2.map Frame.strip2 = some [none, some (1, 0)] := by
  obtain ⟨pd, pa1, pa2, po⟩ := paintGL_post realLib zoomScope
  obtain ⟨ptb, pto⟩ := paintGL_post_time realLib zoomScope
  rw [handleMode_IQ realLib zoomScope rfl] at pd pa1 pa2 po
  have hd : (paintGL realLib true zoomScope).1.displayTrace = [⟨1, 0⟩, ⟨0, 1⟩] := pd
  have ha1 : (paintGL realLib true zoomScope).1.m_amp1 = 1 := pa1
  have ha2 : (paintGL realLib true zoomScope).1.m_amp2 = 1 := pa2
  have ho : (paintGL realLib true zoomScope).1.m_ofs1 = 0 := po
  have htb : (paintGL realLib true zoomScope).1.m_timeBase = 2 := ptb
  have hto : (paintGL realLib true zoomScope).1.m_timeOfsProMill = 0 := pto
  have hi : drawnIndices 0 2 2 = [-1, 0] := by decide
  have hs : loopStart 0 2 2 = -1 := by decide
  refine ⟨by rw [hd]; rfl, by decide, by decide, hi, by rw [hd]; rfl, ?_, ?_⟩
  · rw [paintGL_frame]
    simp only [Option.map_some', lineStrip1, hd, ha1, ho, htb, hto, List.length_cons,
      List.length_nil]
    simp [hi, hs, traceAt, limit]
  · rw [paintGL_frame]
    simp only [Option.map_some', lineStrip2, hd, ha2, htb, hto, List.length_cons,
      List.length_nil]
    simp [hi, hs, traceAt, limit]
    norm_num

end GLScope

namespace SDRPlaySettings

/-! ## Settings round trip -/

theorem deserialize_serialize (FC_POS_CENTER : Int) (s t : SDRPlaySettings) :
    deserialize FC_POS_CENTER (serialize s) t
      = ({ s with m_centerFrequency := t.m_centerFrequency }, true) := by
  rfl

/-- C19: with the serializer a version-tagged map from field id to value, deserializing
`s.serialize()` into any settings object `t` returns `true` and leaves `t` with the twelve
persisted members of `s`, while `t.m_centerFrequency` stays as it was. -/
theorem deserialize_serialize_fields (FC_POS_CENTER : Int) (s t : SDRPlaySettings) :
    (deserialize FC_POS_CENTER (serialize s) t).2 = true ∧
    (deserialize FC_POS_CENTER (serialize s) t).1.m_LOppmTenths = s.m_LOppmTenths ∧
    (deserialize FC_POS_CENTER (serialize s) t).1.m_frequencyBandIndex = s.m_frequencyBandIndex ∧
    (deserialize FC_POS_CENTER (serialize s) t).1.m_ifFrequencyIndex = s.m_ifFrequencyIndex ∧
    (deserialize FC_POS_CENTER (serialize s) t).1.m_mirDcCorrIndex = s.m_mirDcCorrIndex ∧
    (deserialize FC_POS_CENTER (serialize s) t).1.m_mirDcCorrTrackTimeIndex
      = s.m_mirDcCorrTrackTimeIndex ∧
    (deserialize FC_POS_CENTER (serialize s) t).1.m_bandwidthIndex = s.m_bandwidthIndex ∧
    (deserialize FC_POS_CENTER (serialize s) t).1.m_devSampleRateIndex = s.m_devSampleRateIndex ∧
    (deserialize FC_POS_CENTER (serialize s) t).1.m_gainRedctionIndex = s.m_gainRedctionIndex ∧
    (deserialize FC_POS_CENTER (serialize s) t).1.m_log2Decim = s.m_log2Decim ∧
    (deserialize FC_POS_CENTER (serialize s) t).1.m_fcPos = s.m_fcPos ∧
    (deserialize FC_POS_CENTER (serialize s) t).1.m_dcBlock = s.m_dcBlock ∧
    (deserialize FC_POS_CENTER (serialize s) t).1.m_iqCorrection = s.m_iqCorrection ∧
    (deserialize FC_POS_CENTER (serialize s) t).1.m_centerFrequency = t.m_centerFrequency := by
  rw [deserialize_serialize]
  exact ⟨rfl, rfl, rfl, rfl, rfl, rfl, rfl, rfl, rfl, rfl, rfl, rfl, rfl, rfl⟩

end SDRPlaySettings

end SDRangel
